import Mathlib

/-!
Verification of the citation-position logic of the `pdf-ocr-with-position`
repository.

The repository's computational core is `calculate_position_python`
(`streamlit_app.py`, lines 170-219): it coerces six possibly-absent,
possibly-textual inputs to floats inside a `try` block, substitutes the
US-Letter fallback dimensions 612 × 792 for missing or non-positive page
dimensions, normalizes the bounding-box center to the unit page and
classifies it into a 3 × 3 grid of labels; `except (ValueError, TypeError,
ZeroDivisionError)` turns those coercion failures into the default label
`"middle-center"`.  A second file, `streamlit_pdf_viewer.py` (lines
128-132 and 183-188), recomputes the same normalized geometry as four
unguarded percentage values for the visual-highlight overlay.

We embed the numeric domain as `ℚ`.  Python scalar values appearing as
arguments are modelled by the inductive type `PyVal`; the coercion
`float(v)` is modelled by `floatOf`, whose failure modes distinguish the
exception classes the `except` clause catches (`ValueError` from an
unparsable string, `TypeError` from a non-numeric object) from one it
does not (`OverflowError`, raised by `float` on an integer too large for a
double, e.g. `10**400`).  The `try` body is an `Except` computation and the
surrounding handler is an explicit `match`, so "raises to the caller" is
observable as an `Except.error` result of the embedded function.  Python
float division, which raises `ZeroDivisionError` on a zero divisor, is
modelled in the viewer's unguarded path by an `Option`-valued division.
-/

/-- The Python exception classes that can escape the coercions inside the
`try` block of `calculate_position_python`. -/
inductive PyExn where
  /-- `ValueError` (unparsable string) or `TypeError` (non-numeric object):
  both appear in the `except (ValueError, TypeError, ZeroDivisionError)`
  tuple and are caught. -/
  | valueOrType : PyExn
  /-- `OverflowError`, raised by `float` on an `int` too large to convert to
  a double; it is absent from the `except` tuple. -/
  | overflow : PyExn
deriving DecidableEq, Repr

/-- A Python scalar value as it may be passed for any of the six parameters
of `calculate_position_python`. -/
inductive PyVal where
  /-- Python `None`. -/
  | none : PyVal
  /-- A finite numeric value (`int` or `float`, represented exactly);
  `float` returns it. -/
  | num : ℚ → PyVal
  /-- A string that `float` parses to the given finite value. -/
  | numStr : ℚ → PyVal
  /-- A string `float` rejects with `ValueError`. -/
  | badStr : PyVal
  /-- A non-numeric, non-string object: `float` raises `TypeError`. -/
  | obj : PyVal
  /-- An `int` too large to convert to a double: `float` raises
  `OverflowError`. -/
  | hugeInt : PyVal
deriving DecidableEq, Repr

/-- `float(v) if v is not None else dflt`: the coercion pattern used for
each of the six parameters (lines 178-183 of `streamlit_app.py`), with the
per-parameter default `dflt`. -/
def floatOf (v : PyVal) (dflt : ℚ) : Except PyExn ℚ :=
  match v with
  | .none => .ok dflt
  | .num q => .ok q
  | .numStr q => .ok q
  | .badStr => .error .valueOrType
  | .obj => .error .valueOrType
  | .hugeInt => .error .overflow

/-- Lines 186-187: `if page_width <= 0: page_width = 612.0`. -/
def effWidth (w : ℚ) : ℚ := if w ≤ 0 then 612 else w

/-- Lines 188-189: `if page_height <= 0: page_height = 792.0`. -/
def effHeight (h : ℚ) : ℚ := if h ≤ 0 then 792 else h

/-- The vertical band of lines 199-205: `rel_y > 0.67 → "top"`,
`rel_y < 0.33 → "bottom"`, otherwise `"middle"`. -/
def vertBand (relY : ℚ) : String :=
  if relY > 67/100 then "top"
  else if relY < 33/100 then "bottom"
  else "middle"

/-- The horizontal band of lines 207-213: `rel_x < 0.33 → "left"`,
`rel_x > 0.67 → "right"`, otherwise `"center"`. -/
def horizBand (relX : ℚ) : String :=
  if relX < 33/100 then "left"
  else if relX > 67/100 then "right"
  else "center"

/-- The body of the `try` block of `calculate_position_python`
(lines 177-215): coerce the six inputs in order, substitute 612 / 792 for a
non-positive page dimension, normalize the box center and classify it. -/
def calcBody (bboxX0 bboxY0 bboxX1 bboxY1 pageWidth pageHeight : PyVal) :
    Except PyExn String := do
  let x0 ← floatOf bboxX0 0
  let y0 ← floatOf bboxY0 0
  let x1 ← floatOf bboxX1 0
  let y1 ← floatOf bboxY1 0
  let w ← floatOf pageWidth 612
  let h ← floatOf pageHeight 792
  let w := effWidth w
  let h := effHeight h
  let centerX := (x0 + x1) / 2
  let centerY := (y0 + y1) / 2
  let relX := centerX / w
  let relY := centerY / h
  pure (vertBand relY ++ "-" ++ horizBand relX)

/-- `calculate_position_python` (lines 170-219).  The `except (ValueError,
TypeError, ZeroDivisionError)` handler turns a caught failure into the
default `"middle-center"`; an exception class outside that tuple propagates
to the caller, which the embedding records as `Except.error`. -/
def calculate_position_python
    (bboxX0 bboxY0 bboxX1 bboxY1 pageWidth pageHeight : PyVal) :
    Except PyExn String :=
  match calcBody bboxX0 bboxY0 bboxX1 bboxY1 pageWidth pageHeight with
  | .ok s => .ok s
  | .error .valueOrType => .ok "middle-center"
  | .error .overflow => .error .overflow

/-- The label the spec's band rules assign to a normalized center
`(relX, relY)`: `"{vertical}-{horizontal}"` with the 0.33 / 0.67
thresholds. -/
def specLabel (relX relY : ℚ) : String :=
  vertBand relY ++ "-" ++ horizBand relX

/-- The 9 position labels: the cross product
{"top","middle","bottom"} × {"left","center","right"} joined with a
hyphen. -/
def positionLabels : List String :=
  ["top", "middle", "bottom"].flatMap fun v =>
    ["left", "center", "right"].map fun h => v ++ "-" ++ h

/-- A row of the `document_chunks` result frame as consumed by
`streamlit_pdf_viewer.py`: the bounding box and page-dimension columns of a
selected citation. -/
structure Citation where
  BBOX_X0 : ℚ
  BBOX_Y0 : ℚ
  BBOX_X1 : ℚ
  BBOX_Y1 : ℚ
  PAGE_WIDTH : ℚ
  PAGE_HEIGHT : ℚ
deriving DecidableEq, Repr

/-- Python float division: raises `ZeroDivisionError` (modelled as
`Option.none`) when the divisor is zero. -/
def pydiv (a b : ℚ) : Option ℚ :=
  if b = 0 then Option.none else some (a / b)

/-- Line 129: `rel_x0 = (citation['BBOX_X0'] / citation['PAGE_WIDTH']) * 100`. -/
def rel_x0 (c : Citation) : Option ℚ :=
  (pydiv c.BBOX_X0 c.PAGE_WIDTH).map (· * 100)

/-- Line 130: `rel_y0 = (citation['BBOX_Y0'] / citation['PAGE_HEIGHT']) * 100`. -/
def rel_y0 (c : Citation) : Option ℚ :=
  (pydiv c.BBOX_Y0 c.PAGE_HEIGHT).map (· * 100)

/-- Line 131: `rel_width = ((citation['BBOX_X1'] - citation['BBOX_X0']) / citation['PAGE_WIDTH']) * 100`. -/
def rel_width (c : Citation) : Option ℚ :=
  (pydiv (c.BBOX_X1 - c.BBOX_X0) c.PAGE_WIDTH).map (· * 100)

/-- Line 132: `rel_height = ((citation['BBOX_Y1'] - citation['BBOX_Y0']) / citation['PAGE_HEIGHT']) * 100`. -/
def rel_height (c : Citation) : Option ℚ :=
  (pydiv (c.BBOX_Y1 - c.BBOX_Y0) c.PAGE_HEIGHT).map (· * 100)

/-- The `relative_position` object of lines 183-188: the four percentage
values `left`, `top`, `width`, `height`, in that order. -/
def relative_position (c : Citation) : Option (ℚ × ℚ × ℚ × ℚ) := do
  let l ← rel_x0 c
  let t ← rel_y0 c
  let w ← rel_width c
  let h ← rel_height c
  pure (l, t, w, h)

/-! ### Helper lemmas -/

theorem effWidth_of_pos {w : ℚ} (hw : 0 < w) : effWidth w = w := by
  unfold effWidth
  rw [if_neg (not_le.mpr hw)]

theorem effHeight_of_pos {h : ℚ} (hh : 0 < h) : effHeight h = h := by
  unfold effHeight
  rw [if_neg (not_le.mpr hh)]

theorem effWidth_of_nonpos {w : ℚ} (hw : w ≤ 0) : effWidth w = 612 := if_pos hw

theorem effHeight_of_nonpos {h : ℚ} (hh : h ≤ 0) : effHeight h = 792 := if_pos hh

/-- When all six coercions succeed, `calculate_position_python` classifies
the normalized center against the effective page dimensions. -/
theorem calc_coerced (v0 v1 v2 v3 v4 v5 : PyVal) (q0 q1 q2 q3 q4 q5 : ℚ)
    (h0 : floatOf v0 0 = .ok q0) (h1 : floatOf v1 0 = .ok q1)
    (h2 : floatOf v2 0 = .ok q2) (h3 : floatOf v3 0 = .ok q3)
    (h4 : floatOf v4 612 = .ok q4) (h5 : floatOf v5 792 = .ok q5) :
    calculate_position_python v0 v1 v2 v3 v4 v5
      = .ok (specLabel ((q0 + q2) / 2 / effWidth q4) ((q1 + q3) / 2 / effHeight q5)) := by
  simp [calculate_position_python, calcBody, h0, h1, h2, h3, h4, h5,
    bind, Except.bind, specLabel, pure, Except.pure]

theorem vertBand_cases (relY : ℚ) :
    vertBand relY = "top" ∨ vertBand relY = "bottom" ∨ vertBand relY = "middle" := by
  unfold vertBand
  split_ifs <;> simp

theorem horizBand_cases (relX : ℚ) :
    horizBand relX = "left" ∨ horizBand relX = "right" ∨ horizBand relX = "center" := by
  unfold horizBand
  split_ifs <;> simp

/-- Every band combination is one of the nine labels. -/
theorem specLabel_mem (relX relY : ℚ) : specLabel relX relY ∈ positionLabels := by
  unfold specLabel
  rcases vertBand_cases relY with hv | hv | hv <;>
    rcases horizBand_cases relX with hx | hx | hx <;>
      rw [hv, hx] <;> decide

/-- The result of the `try` body is either an exception or a band label. -/
theorem calcBody_shape (v0 v1 v2 v3 v4 v5 : PyVal) :
    (∃ e, calcBody v0 v1 v2 v3 v4 v5 = .error e) ∨
    ∃ relX relY, calcBody v0 v1 v2 v3 v4 v5 = .ok (specLabel relX relY) := by
  unfold calcBody
  rcases h0 : floatOf v0 0 with e0 | q0 <;>
  rcases h1 : floatOf v1 0 with e1 | q1 <;>
  rcases h2 : floatOf v2 0 with e2 | q2 <;>
  rcases h3 : floatOf v3 0 with e3 | q3 <;>
  rcases h4 : floatOf v4 612 with e4 | q4 <;>
  rcases h5 : floatOf v5 792 with e5 | q5 <;>
    simp only [bind, Except.bind, pure, Except.pure, specLabel] <;>
    first
      | exact Or.inl ⟨_, rfl⟩
      | exact Or.inr ⟨_, _, rfl⟩

/-- Every successfully returned label is either the error-branch default or
a band label. -/
theorem calc_result_shape (v0 v1 v2 v3 v4 v5 : PyVal) (s : String)
    (h : calculate_position_python v0 v1 v2 v3 v4 v5 = .ok s) :
    s = "middle-center" ∨ ∃ relX relY, s = specLabel relX relY := by
  unfold calculate_position_python at h
  rcases calcBody_shape v0 v1 v2 v3 v4 v5 with ⟨e, he⟩ | ⟨relX, relY, hok⟩
  · rw [he] at h
    cases e
    · simp only [Except.ok.injEq] at h
      exact Or.inl h.symm
    · simp at h
  · rw [hok] at h
    simp only [Except.ok.injEq] at h
    exact Or.inr ⟨relX, relY, h.symm⟩

/-- A non-positive numeric page width is interchangeable with the fallback
612 at the `try`-body level. -/
theorem calcBody_width_fallback (v0 v1 v2 v3 v5 : PyVal) {w : ℚ} (hw : w ≤ 0) :
    calcBody v0 v1 v2 v3 (.num w) v5 = calcBody v0 v1 v2 v3 (.num 612) v5 := by
  unfold calcBody
  rcases h0 : floatOf v0 0 with e0 | q0 <;>
  rcases h1 : floatOf v1 0 with e1 | q1 <;>
  rcases h2 : floatOf v2 0 with e2 | q2 <;>
  rcases h3 : floatOf v3 0 with e3 | q3 <;>
  rcases h5 : floatOf v5 792 with e5 | q5 <;>
    simp only [floatOf, bind, Except.bind, pure, Except.pure,
      effWidth_of_nonpos hw, effWidth_of_pos (by norm_num : (0:ℚ) < 612)]

/-- A missing page width is interchangeable with the fallback 612 at the
`try`-body level: `float(page_width) if page_width is not None else 612.0`
already supplies 612 for `None`. -/
theorem calcBody_width_none (v0 v1 v2 v3 v5 : PyVal) :
    calcBody v0 v1 v2 v3 .none v5 = calcBody v0 v1 v2 v3 (.num 612) v5 := rfl

/-- A non-positive numeric page height is interchangeable with the fallback
792 at the `try`-body level. -/
theorem calcBody_height_fallback (v0 v1 v2 v3 v4 : PyVal) {h : ℚ} (hh : h ≤ 0) :
    calcBody v0 v1 v2 v3 v4 (.num h) = calcBody v0 v1 v2 v3 v4 (.num 792) := by
  unfold calcBody
  rcases h0 : floatOf v0 0 with e0 | q0 <;>
  rcases h1 : floatOf v1 0 with e1 | q1 <;>
  rcases h2 : floatOf v2 0 with e2 | q2 <;>
  rcases h3 : floatOf v3 0 with e3 | q3 <;>
  rcases h4 : floatOf v4 612 with e4 | q4 <;>
    simp only [floatOf, bind, Except.bind, pure, Except.pure,
      effHeight_of_nonpos hh, effHeight_of_pos (by norm_num : (0:ℚ) < 792)]

/-- A missing page height is interchangeable with the fallback 792 at the
`try`-body level. -/
theorem calcBody_height_none (v0 v1 v2 v3 v4 : PyVal) :
    calcBody v0 v1 v2 v3 v4 .none = calcBody v0 v1 v2 v3 v4 (.num 792) := rfl

/-- Congruence: equal `try`-body results give equal function results. -/
theorem calc_congr {v0 v1 v2 v3 v4 v5 u0 u1 u2 u3 u4 u5 : PyVal}
    (h : calcBody v0 v1 v2 v3 v4 v5 = calcBody u0 u1 u2 u3 u4 u5) :
    calculate_position_python v0 v1 v2 v3 v4 v5
      = calculate_position_python u0 u1 u2 u3 u4 u5 := by
  unfold calculate_position_python
  rw [h]

/-! ### Claim theorems -/

/-- C1 fails as stated: the claim's formula divides by the page dimensions
as given whenever they "coerce to finite numbers", but for the finite
height -100 the code substitutes the fallback 792 first.  With box
(306, -100, 306, -100) and page 612 × -100 the claim's `ry` is 1 (> 0.67,
so "top-center"), while the code returns "bottom-center". -/
theorem claim1_raw_dimension_counterexample :
    calculate_position_python (.num 306) (.num (-100)) (.num 306) (.num (-100))
        (.num 612) (.num (-100)) = .ok "bottom-center"
      ∧ specLabel (((306:ℚ) + 306) / 2 / 612) ((((-100):ℚ) + (-100)) / 2 / (-100))
          = "top-center"
      ∧ ("bottom-center" : String) ≠ "top-center" := by
  refine ⟨?_, ?_, by decide⟩
  · rw [calc_coerced (.num 306) (.num (-100)) (.num 306) (.num (-100))
      (.num 612) (.num (-100)) 306 (-100) 306 (-100) 612 (-100) rfl rfl rfl rfl rfl rfl]
    norm_num [specLabel, vertBand, horizBand, effWidth, effHeight]
    all_goals decide
  · norm_num [specLabel, vertBand, horizBand]
    all_goals decide

/-- C1 (amended): for every input whose coordinates coerce to finite
numbers and whose page dimensions coerce to finite positive numbers,
`calculate_position_python` returns the band label of the normalized center
`((x0+x1)/2/width, (y0+y1)/2/height)` under the strict 0.33 / 0.67
threshold rules; the exact boundary values 0.67 and 0.33 resolve to the
middle / center band. -/
theorem claim1_band_classification (v0 v1 v2 v3 v4 v5 : PyVal)
    (q0 q1 q2 q3 q4 q5 : ℚ)
    (h0 : floatOf v0 0 = .ok q0) (h1 : floatOf v1 0 = .ok q1)
    (h2 : floatOf v2 0 = .ok q2) (h3 : floatOf v3 0 = .ok q3)
    (h4 : floatOf v4 612 = .ok q4) (h5 : floatOf v5 792 = .ok q5)
    (hw : 0 < q4) (hh : 0 < q5) :
    calculate_position_python v0 v1 v2 v3 v4 v5
        = .ok (specLabel ((q0 + q2) / 2 / q4) ((q1 + q3) / 2 / q5))
      ∧ vertBand (67/100) = "middle" ∧ vertBand (33/100) = "middle"
      ∧ horizBand (33/100) = "center" ∧ horizBand (67/100) = "center" := by
  refine ⟨?_, by norm_num [vertBand], by norm_num [vertBand],
    by norm_num [horizBand], by norm_num [horizBand]⟩
  rw [calc_coerced v0 v1 v2 v3 v4 v5 q0 q1 q2 q3 q4 q5 h0 h1 h2 h3 h4 h5,
    effWidth_of_pos hw, effHeight_of_pos hh]

/-- Witness for C1 (amended) at box (306, 396, 306, 396), the x-coordinates
arriving as strings, over page 612 × 792. -/
theorem claim1_band_classification_witness :
    calculate_position_python (.numStr 306) (.num 396) (.numStr 306) (.num 396)
        (.num 612) (.num 792)
        = .ok (specLabel (((306:ℚ) + 306) / 2 / 612) (((396:ℚ) + 396) / 2 / 792))
      ∧ vertBand (67/100) = "middle" ∧ vertBand (33/100) = "middle"
      ∧ horizBand (33/100) = "center" ∧ horizBand (67/100) = "center" :=
  claim1_band_classification (.numStr 306) (.num 396) (.numStr 306) (.num 396)
    (.num 612) (.num 792) 306 396 306 396 612 792
    rfl rfl rfl rfl rfl rfl (by norm_num) (by norm_num)

/-- C2: the spec demands a total function that never raises, but the code
misses one coercion-failure class: `float` on an `int` too large for a
double (e.g. `10**400`) raises `OverflowError`, which the
`except (ValueError, TypeError, ZeroDivisionError)` tuple does not catch,
so the exception propagates to the caller instead of yielding the safe
default.  The classes the tuple does catch yield `"middle-center"`. -/
theorem claim2_overflow_raises_to_caller :
    calculate_position_python .hugeInt .none .none .none .none .none
        = .error .overflow
      ∧ calculate_position_python .badStr .none .none .none .none .none
        = .ok "middle-center"
      ∧ calculate_position_python .obj .none .none .none .none .none
        = .ok "middle-center" :=
  ⟨rfl, rfl, rfl⟩

/-- C3: a non-positive or missing page width (respectively height) is
interchangeable with the fallback 612 (respectively 792); the
classification proceeds exactly as with the fallback dimension. -/
theorem claim3_dimension_fallback (v0 v1 v2 v3 v4 v5 : PyVal) (w h : ℚ)
    (hw : w ≤ 0) (hh : h ≤ 0) :
    calculate_position_python v0 v1 v2 v3 (.num w) v5
        = calculate_position_python v0 v1 v2 v3 (.num 612) v5
      ∧ calculate_position_python v0 v1 v2 v3 .none v5
        = calculate_position_python v0 v1 v2 v3 (.num 612) v5
      ∧ calculate_position_python v0 v1 v2 v3 v4 (.num h)
        = calculate_position_python v0 v1 v2 v3 v4 (.num 792)
      ∧ calculate_position_python v0 v1 v2 v3 v4 .none
        = calculate_position_python v0 v1 v2 v3 v4 (.num 792) :=
  ⟨calc_congr (calcBody_width_fallback v0 v1 v2 v3 v5 hw),
   calc_congr (calcBody_width_none v0 v1 v2 v3 v5),
   calc_congr (calcBody_height_fallback v0 v1 v2 v3 v4 hh),
   calc_congr (calcBody_height_none v0 v1 v2 v3 v4)⟩

/-- Witness for C3 with zero width and negative height on the box
(1, 2, 3, 4). -/
theorem claim3_dimension_fallback_witness :
    (0:ℚ) ≤ 0 ∧ (-5:ℚ) ≤ 0
      ∧ (calculate_position_python (.num 1) (.num 2) (.num 3) (.num 4) (.num 0) (.num 10)
          = calculate_position_python (.num 1) (.num 2) (.num 3) (.num 4) (.num 612) (.num 10)
        ∧ calculate_position_python (.num 1) (.num 2) (.num 3) (.num 4) .none (.num 10)
          = calculate_position_python (.num 1) (.num 2) (.num 3) (.num 4) (.num 612) (.num 10)
        ∧ calculate_position_python (.num 1) (.num 2) (.num 3) (.num 4) (.num 7) (.num (-5))
          = calculate_position_python (.num 1) (.num 2) (.num 3) (.num 4) (.num 7) (.num 792)
        ∧ calculate_position_python (.num 1) (.num 2) (.num 3) (.num 4) (.num 7) .none
          = calculate_position_python (.num 1) (.num 2) (.num 3) (.num 4) (.num 7) (.num 792)) :=
  ⟨le_refl 0, by norm_num,
   claim3_dimension_fallback (.num 1) (.num 2) (.num 3) (.num 4) (.num 7) (.num 10)
     0 (-5) (le_refl 0) (by norm_num)⟩

/-- C4: the five concrete scenarios of the spec: the whole-page box, a
top-right box, a bottom-left box, a central box, and the all-absent input
treated as the zero box over the fallback page. -/
theorem claim4_concrete_scenarios :
    calculate_position_python (.num 0) (.num 0) (.num 612) (.num 792)
        (.num 612) (.num 792) = .ok "middle-center"
      ∧ calculate_position_python (.num 450) (.num 700) (.num 600) (.num 780)
          (.num 612) (.num 792) = .ok "top-right"
      ∧ calculate_position_python (.num 0) (.num 0) (.num 100) (.num 100)
          (.num 612) (.num 792) = .ok "bottom-left"
      ∧ calculate_position_python (.num 200) (.num 300) (.num 400) (.num 500)
          (.num 612) (.num 792) = .ok "middle-center"
      ∧ calculate_position_python .none .none .none .none .none .none
          = .ok "bottom-left" := by
  refine ⟨?_, ?_, ?_, ?_, ?_⟩ <;>
  · simp only [calculate_position_python, calcBody, floatOf, bind, Except.bind,
      pure, Except.pure]
    norm_num [effWidth, effHeight, vertBand, horizBand]
    all_goals decide

/-- C5: every value the function returns is one of the 9 labels of the
cross product {top, middle, bottom} × {left, center, right} joined with a
hyphen — the error-branch default "middle-center" included. -/
theorem claim5_label_range (v0 v1 v2 v3 v4 v5 : PyVal) (s : String)
    (h : calculate_position_python v0 v1 v2 v3 v4 v5 = .ok s) :
    s ∈ positionLabels := by
  rcases calc_result_shape v0 v1 v2 v3 v4 v5 s h with hs | ⟨relX, relY, hs⟩
  · rw [hs]
    decide
  · rw [hs]
    exact specLabel_mem relX relY

/-- Witness for C5 on the all-absent input, whose label is "bottom-left". -/
theorem claim5_label_range_witness :
    calculate_position_python .none .none .none .none .none .none
        = .ok "bottom-left"
      ∧ "bottom-left" ∈ positionLabels := by
  have h : calculate_position_python .none .none .none .none .none .none
      = .ok "bottom-left" := by
    simp only [calculate_position_python, calcBody, floatOf, bind, Except.bind,
      pure, Except.pure]
    norm_num [effWidth, effHeight, vertBand, horizBand]
    all_goals decide
  exact ⟨h, claim5_label_range .none .none .none .none .none .none "bottom-left" h⟩

/-- C6: the classifier neither clamps nor rejects out-of-page geometry:
with positive page dimensions and a normalized center outside the unit
square, the result is still the band label of the unclamped center; in
particular `ry > 1` gives the vertical band "top" and `rx < 0` the
horizontal band "left". -/
theorem claim6_no_clamping (x0 y0 x1 y1 w h : ℚ) (hw : 0 < w) (hh : 0 < h)
    (hout : (x0 + x1) / 2 / w < 0 ∨ 1 < (x0 + x1) / 2 / w
          ∨ (y0 + y1) / 2 / h < 0 ∨ 1 < (y0 + y1) / 2 / h) :
    calculate_position_python (.num x0) (.num y0) (.num x1) (.num y1)
        (.num w) (.num h)
        = .ok (specLabel ((x0 + x1) / 2 / w) ((y0 + y1) / 2 / h))
      ∧ (1 < (y0 + y1) / 2 / h → vertBand ((y0 + y1) / 2 / h) = "top")
      ∧ ((x0 + x1) / 2 / w < 0 → horizBand ((x0 + x1) / 2 / w) = "left") := by
  refine ⟨?_, ?_, ?_⟩
  · rw [calc_coerced (.num x0) (.num y0) (.num x1) (.num y1) (.num w) (.num h)
      x0 y0 x1 y1 w h rfl rfl rfl rfl rfl rfl,
      effWidth_of_pos hw, effHeight_of_pos hh]
  · intro hy
    unfold vertBand
    rw [if_pos (by linarith : (y0 + y1) / 2 / h > 67/100)]
  · intro hx
    unfold horizBand
    rw [if_pos (by linarith : (x0 + x1) / 2 / w < 33/100)]

/-- Witness for C6 at the degenerate box (-500, -500, -500, -500) over page
612 × 792, whose normalized center lies outside [0,1] × [0,1]. -/
theorem claim6_no_clamping_witness :
    (0:ℚ) < 612 ∧ (0:ℚ) < 792
      ∧ (((-500:ℚ) + (-500)) / 2 / 612 < 0 ∨ 1 < ((-500:ℚ) + (-500)) / 2 / 612
        ∨ ((-500:ℚ) + (-500)) / 2 / 792 < 0 ∨ 1 < ((-500:ℚ) + (-500)) / 2 / 792)
      ∧ (calculate_position_python (.num (-500)) (.num (-500)) (.num (-500))
            (.num (-500)) (.num 612) (.num 792)
            = .ok (specLabel ((((-500):ℚ) + (-500)) / 2 / 612)
                ((((-500):ℚ) + (-500)) / 2 / 792))
        ∧ (1 < ((-500:ℚ) + (-500)) / 2 / 792
            → vertBand ((((-500):ℚ) + (-500)) / 2 / 792) = "top")
        ∧ (((-500:ℚ) + (-500)) / 2 / 612 < 0
            → horizBand ((((-500):ℚ) + (-500)) / 2 / 612) = "left")) :=
  ⟨by norm_num, by norm_num, Or.inl (by norm_num),
   claim6_no_clamping (-500) (-500) (-500) (-500) 612 792
     (by norm_num) (by norm_num) (Or.inl (by norm_num))⟩

/-- C7: the label depends only on the box's geometric center: collapsing
the box to its center point, or swapping its two corner points, never
changes the result. -/
theorem claim7_center_only (x0 y0 x1 y1 w h : ℚ) :
    calculate_position_python (.num x0) (.num y0) (.num x1) (.num y1)
        (.num w) (.num h)
        = calculate_position_python (.num ((x0 + x1) / 2)) (.num ((y0 + y1) / 2))
            (.num ((x0 + x1) / 2)) (.num ((y0 + y1) / 2)) (.num w) (.num h)
      ∧ calculate_position_python (.num x0) (.num y0) (.num x1) (.num y1)
          (.num w) (.num h)
        = calculate_position_python (.num x1) (.num y1) (.num x0) (.num y0)
            (.num w) (.num h) := by
  constructor
  · apply calc_congr
    have hx : ((x0 + x1) / 2 + (x0 + x1) / 2) / 2 = (x0 + x1) / 2 := by ring
    have hy : ((y0 + y1) / 2 + (y0 + y1) / 2) / 2 = (y0 + y1) / 2 := by ring
    simp only [calcBody, floatOf, bind, Except.bind, pure, Except.pure]
    rw [hx, hy]
  · apply calc_congr
    simp only [calcBody, floatOf, bind, Except.bind, pure, Except.pure]
    rw [add_comm x1 x0, add_comm y1 y0]

/-- C8: the function is deterministic and reads no ambient state: its
result is a function of its six arguments alone, so equal inputs give
equal labels.  (The embedding is a pure function because the source reads
and writes no variable outside its parameter list and performs no I/O.) -/
theorem claim8_deterministic (a0 a1 a2 a3 a4 a5 b0 b1 b2 b3 b4 b5 : PyVal)
    (h0 : a0 = b0) (h1 : a1 = b1) (h2 : a2 = b2) (h3 : a3 = b3)
    (h4 : a4 = b4) (h5 : a5 = b5) :
    calculate_position_python a0 a1 a2 a3 a4 a5
      = calculate_position_python b0 b1 b2 b3 b4 b5 := by
  rw [h0, h1, h2, h3, h4, h5]

/-- Witness for C8 at two syntactically equal argument vectors. -/
theorem claim8_deterministic_witness :
    calculate_position_python (.num 1) (.num 2) (.num 3) (.num 4) (.num 612) (.num 792)
      = calculate_position_python (.num 1) (.num 2) (.num 3) (.num 4) (.num 612) (.num 792) :=
  claim8_deterministic (.num 1) (.num 2) (.num 3) (.num 4) (.num 612) (.num 792)
    (.num 1) (.num 2) (.num 3) (.num 4) (.num 612) (.num 792)
    rfl rfl rfl rfl rfl rfl

/-- C9: for a citation with numeric bounding box and positive page
dimensions, the viewer's four relative-position values are exactly the
normalized geometry as percentages — left = (x0/width)·100,
top = (y0/height)·100, width = ((x1-x0)/width)·100,
height = ((y1-y0)/height)·100 — with no other transformation. -/
theorem claim9_relative_position_formulas (c : Citation)
    (hw : 0 < c.PAGE_WIDTH) (hh : 0 < c.PAGE_HEIGHT) :
    relative_position c
      = some (c.BBOX_X0 / c.PAGE_WIDTH * 100,
              c.BBOX_Y0 / c.PAGE_HEIGHT * 100,
              (c.BBOX_X1 - c.BBOX_X0) / c.PAGE_WIDTH * 100,
              (c.BBOX_Y1 - c.BBOX_Y0) / c.PAGE_HEIGHT * 100) := by
  have hw' : c.PAGE_WIDTH ≠ 0 := ne_of_gt hw
  have hh' : c.PAGE_HEIGHT ≠ 0 := ne_of_gt hh
  simp [relative_position, rel_x0, rel_y0, rel_width, rel_height, pydiv,
    hw', hh', bind, Option.bind]

/-- Witness for C9 at the citation (10, 20, 110, 220) on a 100 × 200 page:
the overlay rectangle is left 10 %, top 10 %, width 100 %, height 100 %. -/
theorem claim9_relative_position_formulas_witness :
    (0:ℚ) < 100 ∧ (0:ℚ) < 200
      ∧ relative_position ⟨10, 20, 110, 220, 100, 200⟩ = some (10, 10, 100, 100) := by
  refine ⟨by norm_num, by norm_num, ?_⟩
  rw [claim9_relative_position_formulas ⟨10, 20, 110, 220, 100, 200⟩
    (by norm_num) (by norm_num)]
  norm_num

/-- C10: unlike the classifier, the viewer's normalization applies no
612 × 792 fallback and guards no division: with PAGE_WIDTH = 0 the very
first percentage computation divides by zero (the embedding returns
`Option.none` where Python raises `ZeroDivisionError`), while
`calculate_position_python` on the same numbers still returns a label. -/
theorem claim10_viewer_division_by_zero :
    rel_x0 ⟨1, 1, 2, 2, 0, 10⟩ = Option.none
      ∧ relative_position ⟨1, 1, 2, 2, 0, 10⟩ = Option.none
      ∧ calculate_position_python (.num 1) (.num 1) (.num 2) (.num 2)
          (.num 0) (.num 10) = .ok "bottom-left" := by
  refine ⟨?_, ?_, ?_⟩
  · simp [rel_x0, pydiv]
  · simp [relative_position, rel_x0, pydiv, bind, Option.bind]
  · simp only [calculate_position_python, calcBody, floatOf, bind, Except.bind,
      pure, Except.pure]
    norm_num [effWidth, effHeight, vertBand, horizBand]
    all_goals decide
